import Mathlib

/-!
Shallow embedding of the project-management procedure set of the Rails
repository (`src/server/api/routers/project.ts`).

The data store (Prisma over a relational schema) is modelled as an explicit
`Store` value; each tRPC procedure becomes a Lean function from the store and
its input to a result, and — for mutations — a new store.  Errors thrown via
`TRPCError` become `Except.error` values carrying the error code and message.
Prisma's `update`/`delete` on a missing record throws; this is modelled with a
`NOT_FOUND` error.  `findFirst`/`findUnique` become `List.find?`.
-/

namespace Rails

/-- Prisma enum `ProjectType`. -/
inductive ProjectType where
  | KANBAN
  | SCRUM
deriving DecidableEq, Repr

/-- `interface ProjectInfo` from `project.ts`. -/
structure ProjectInfo where
  defaultWorkflows : List String
  projectName : String
deriving DecidableEq, Repr

/-- `const projectTypesList : Record<ProjectType, ProjectInfo>` from `project.ts`. -/
def projectTypesList : ProjectType → ProjectInfo
  | .KANBAN =>
      { defaultWorkflows := ["Backlog", "To Do", "In Progress", "Done"]
        projectName := "Kanban" }
  | .SCRUM =>
      { defaultWorkflows := ["Backlog", "To Do", "In Progress", "Review", "Done"]
        projectName := "Scrum" }

/-- An issue row, with the `index` column used by `orderBy`. -/
structure Issue where
  id : String
  index : Nat
deriving DecidableEq, Repr

/-- A workflow row; `issue` is its issue relation (the relation is named
`issue` in the `include` of `getProjectWorkflows`). -/
structure Workflow where
  title : String
  index : Nat
  issue : List Issue
deriving DecidableEq, Repr

/-- A label row. -/
structure Label where
  id : String
  title : String
  color : String
  description : Option String
  projectId : String
deriving DecidableEq, Repr

/-- A project row together with its `members` relation (member user ids) and
its `workflows` relation. -/
structure Project where
  id : String
  name : String
  projectType : ProjectType
  projectLeadId : String
  defaultAssigneeId : Option String
  workspaceId : Option String
  members : List String
  workflows : List Workflow
deriving DecidableEq, Repr

/-- A workspace row (only the columns the procedures read). -/
structure Workspace where
  id : String
  shortName : String
deriving DecidableEq, Repr

/-- A user row (only the columns `assignUserToProject`'s `where` reads). -/
structure User where
  id : String
  workspaceId : Option String
deriving DecidableEq, Repr

/-- Error codes of the `TRPCError`s thrown by these procedures (plus the
store's native record-not-found condition). -/
inductive ErrCode where
  | UNAUTHORIZED
  | BAD_REQUEST
  | NOT_FOUND
deriving DecidableEq, Repr

/-- `TRPCError`: a code and a message. -/
structure TRPCError where
  code : ErrCode
  message : String
deriving DecidableEq, Repr

/-- The relational store visible to the procedure set. -/
structure Store where
  users : List User
  workspaces : List Workspace
  projects : List Project
  labels : List Label
deriving DecidableEq, Repr

/-- `getUserProjects`: `findMany` with
`OR [members some id = session user, projectLeadId = session user]`. -/
def getUserProjects (s : Store) (sessionUserId : String) : List Project :=
  s.projects.filter
    (fun p => p.members.contains sessionUserId || p.projectLeadId == sessionUserId)

/-- `skipDuplicates: true` on the batched workflow insert: a row whose `title`
repeats the title of an earlier row of the batch (or of an already-inserted
row, tracked in `seen`) is silently skipped. -/
def dedupByTitle (seen : List String) : List Workflow → List Workflow
  | [] => []
  | w :: ws =>
      if seen.contains w.title then dedupByTitle seen ws
      else w :: dedupByTitle (w.title :: seen) ws

/-- `createProject`: looks up the workspace by `shortName` (`findFirst`), then
creates the project with the session user as lead and sole connected member,
with the type's default workflows batch-created at their list positions
(`skipDuplicates: true`), and with `workspaceId` taken from the optional
lookup result (`workspace?.id`: left unset when the lookup found nothing).
The store supplies the fresh project id `newProjectId`. -/
def createProject (s : Store) (sessionUserId name : String) (projectType : ProjectType)
    (workspaceShortName newProjectId : String) : Project × Store :=
  let defaultWorkflows := (projectTypesList projectType).defaultWorkflows
  let workspace := s.workspaces.find? (fun w => w.shortName == workspaceShortName)
  let created : Project :=
    { id := newProjectId
      name := name
      projectType := projectType
      projectLeadId := sessionUserId
      defaultAssigneeId := none
      workspaceId := workspace.map (fun w => w.id)
      members := [sessionUserId]
      workflows :=
        dedupByTitle []
          (defaultWorkflows.enum.map (fun wi => { title := wi.2, index := wi.1, issue := [] })) }
  (created, { s with projects := s.projects ++ [created] })

/-- `updateProject`: `project.update` on `where id`, setting exactly `name`,
`defaultAssigneeId` and `projectLeadId`; the store throws when no row has the
id. -/
def updateProject (s : Store) (id name : String) (defaultAssigneeId : Option String)
    (projectLeadId : String) : Except TRPCError Project × Store :=
  match s.projects.find? (fun p => p.id == id) with
  | none => (.error { code := .NOT_FOUND, message := "Record to update not found." }, s)
  | some p =>
      (.ok { p with name := name, defaultAssigneeId := defaultAssigneeId,
                    projectLeadId := projectLeadId },
       { s with projects := s.projects.map (fun q =>
           if q.id == id then
             { q with name := name, defaultAssigneeId := defaultAssigneeId,
                      projectLeadId := projectLeadId }
           else q) })

/-- The `try` block of `deleteProject`: `findFirst` the project, compare the
session user id with `projectToDelete?.projectLeadId` (a comparison against
the absent value when no project was found), delete on success, otherwise
throw `UNAUTHORIZED`. -/
def deleteProjectTry (s : Store) (sessionUserId id : String) :
    Except TRPCError Project × Store :=
  let projectToDelete := s.projects.find? (fun p => p.id == id)
  if some sessionUserId = projectToDelete.map (fun p => p.projectLeadId) then
    match s.projects.find? (fun p => p.id == id) with
    | some p => (.ok p, { s with projects := s.projects.filter (fun q => !(q.id == id)) })
    | none => (.error { code := .NOT_FOUND, message := "Record to delete does not exist." }, s)
  else
    (.error { code := .UNAUTHORIZED, message := "You Dont have access to delete the Project" }, s)

/-- `deleteProject`: the `try` block wrapped by the `catch` that re-throws
every error as `BAD_REQUEST`. -/
def deleteProject (s : Store) (sessionUserId id : String) :
    Except TRPCError Project × Store :=
  match deleteProjectTry s sessionUserId id with
  | (.ok p, s') => (.ok p, s')
  | (.error _, s') => (.error { code := .BAD_REQUEST, message := "An unexpected error occurred" }, s')

/-- `assignUserToProject`: `user.update` with `where { id: input.projectId,
workspaceId: input.workspaceId }`, connecting that user to the project whose
id is `input.userId` (the two input fields are used crosswise in the source).
The update throws when no such user exists; the connect throws when no such
project exists. -/
def assignUserToProject (s : Store) (workspaceId projectId userId : String) :
    Except TRPCError User × Store :=
  match s.users.find? (fun u => u.id == projectId && u.workspaceId == some workspaceId) with
  | none => (.error { code := .NOT_FOUND, message := "Record to update not found." }, s)
  | some u =>
      if s.projects.any (fun p => p.id == userId) then
        (.ok u, { s with projects := s.projects.map (fun p =>
            if p.id == userId then
              { p with members := if p.members.contains u.id then p.members else p.members ++ [u.id] }
            else p) })
      else
        (.error { code := .NOT_FOUND, message := "Record to connect not found." }, s)

/-- Stable insertion of `a` into `l` in ascending order of `key` (models the
store's `orderBy asc`). -/
def insertByKey (key : α → Nat) (a : α) : List α → List α
  | [] => [a]
  | b :: bs => if key a ≤ key b then a :: b :: bs else b :: insertByKey key a bs

/-- Sort `l` ascending by `key` (models the store's `orderBy asc`). -/
def sortByKey (key : α → Nat) : List α → List α
  | [] => []
  | a :: as => insertByKey key a (sortByKey key as)

/-- `getProjectWorkflows`: `findUniqueOrThrow` the project, returning its
workflows ordered by `index` ascending, each with its issues ordered by
`index` ascending; throws the store's not-found error when there is no such
project. -/
def getProjectWorkflows (s : Store) (projectId : String) :
    Except TRPCError (List Workflow) :=
  match s.projects.find? (fun p => p.id == projectId) with
  | none => .error { code := .NOT_FOUND, message := "No Project found" }
  | some p =>
      .ok (sortByKey (fun w => w.index)
        (p.workflows.map (fun w => { w with issue := sortByKey (fun i => i.index) w.issue })))

/-- `createProjectLabels`: the zod input schema requires
`title: z.string().min(4)` and `color: z.string().min(7).max(7)`; a violating
input is rejected before the handler runs (store untouched), otherwise the
label row is created.  The store supplies the fresh label id `newLabelId`. -/
def createProjectLabels (s : Store) (projectId title color : String)
    (description : Option String) (newLabelId : String) :
    Except TRPCError Label × Store :=
  if title.length < 4 ∨ color.length < 7 ∨ 7 < color.length then
    (.error { code := .BAD_REQUEST, message := "Input validation failed" }, s)
  else
    let created : Label :=
      { id := newLabelId, title := title, color := color,
        description := description, projectId := projectId }
    (.ok created, { s with labels := s.labels ++ [created] })

/-! ### Helper lemmas about `insertByKey` and `sortByKey` -/

theorem insertByKey_perm (key : α → Nat) (a : α) (l : List α) :
    List.Perm (insertByKey key a l) (a :: l) := by
  induction l with
  | nil => exact List.Perm.refl _
  | cons b bs ih =>
      simp only [insertByKey]
      split
      · exact List.Perm.refl _
      · exact (ih.cons b).trans (List.Perm.swap a b bs)

theorem sortByKey_perm (key : α → Nat) (l : List α) : List.Perm (sortByKey key l) l := by
  induction l with
  | nil => exact List.Perm.refl _
  | cons a as ih => exact (insertByKey_perm key a _).trans (ih.cons a)

theorem pairwise_insertByKey (key : α → Nat) (a : α) (l : List α)
    (hl : l.Pairwise (fun x y => key x ≤ key y)) :
    (insertByKey key a l).Pairwise (fun x y => key x ≤ key y) := by
  induction l with
  | nil => simp [insertByKey]
  | cons b bs ih =>
      rcases List.pairwise_cons.mp hl with ⟨hb, hbs⟩
      simp only [insertByKey]
      split
      · rename_i hab
        refine List.pairwise_cons.mpr ⟨?_, hl⟩
        intro y hy
        rcases List.mem_cons.mp hy with hyb | hybs
        · subst hyb
          exact hab
        · exact Nat.le_trans hab (hb y hybs)
      · rename_i hab
        refine List.pairwise_cons.mpr ⟨?_, ih hbs⟩
        intro y hy
        rcases List.mem_cons.mp ((insertByKey_perm key a bs).mem_iff.mp hy) with hya | hybs
        · subst hya
          exact Nat.le_of_lt (Nat.lt_of_not_le hab)
        · exact hb y hybs

theorem pairwise_sortByKey (key : α → Nat) (l : List α) :
    (sortByKey key l).Pairwise (fun x y => key x ≤ key y) := by
  induction l with
  | nil => simp [sortByKey]
  | cons a as ih => exact pairwise_insertByKey key a _ ih

/-! ### Claim theorems -/

/-- Claim C2: for every `projectType` and every input, `createProject` creates
a project whose workflows exactly match the type's fixed template (KANBAN:
Backlog, To Do, In Progress, Done; SCRUM: Backlog, To Do, In Progress,
Review, Done), each workflow's `index` being its position in the template
list, with `projectLeadId` the calling user's id and the caller connected as
the member. -/
theorem createProject_c2 (s : Store) (u nm wsn pid : String) (pt : ProjectType) :
    (createProject s u nm pt wsn pid).1.workflows.map (fun w => (w.title, w.index)) =
      (match pt with
       | .KANBAN => [("Backlog", 0), ("To Do", 1), ("In Progress", 2), ("Done", 3)]
       | .SCRUM => [("Backlog", 0), ("To Do", 1), ("In Progress", 2), ("Review", 3), ("Done", 4)]) ∧
    (createProject s u nm pt wsn pid).1.workflows.map (fun w => w.title) =
      (projectTypesList pt).defaultWorkflows ∧
    (createProject s u nm pt wsn pid).1.projectLeadId = u ∧
    (createProject s u nm pt wsn pid).1.members = [u] := by
  cases pt <;> exact ⟨rfl, rfl, rfl, rfl⟩

/-- Claim C7: `getUserProjects` invoked with current user `u` returns exactly
the projects in which `u` is a member or `u` is the project lead. -/
theorem getUserProjects_c7 (s : Store) (u : String) (p : Project) :
    p ∈ getUserProjects s u ↔ p ∈ s.projects ∧ (u ∈ p.members ∨ p.projectLeadId = u) := by
  simp [getUserProjects, List.mem_filter, List.contains, List.elem_iff]

/-- Claim C5: when no workspace matches `workspaceShortName`, `createProject`
still creates the project (the procedure is total: the failed lookup is not
checked), leaving the project's workspace reference unset. -/
theorem createProject_c5 (s : Store) (u nm wsn pid : String) (pt : ProjectType)
    (h : ∀ w ∈ s.workspaces, w.shortName ≠ wsn) :
    (createProject s u nm pt wsn pid).1.workspaceId = none ∧
    (createProject s u nm pt wsn pid).2.projects =
      s.projects ++ [(createProject s u nm pt wsn pid).1] := by
  have hfind : s.workspaces.find? (fun w => w.shortName == wsn) = none := by
    rw [List.find?_eq_none]
    intro w hw
    simpa using h w hw
  exact ⟨by simp [createProject, hfind], rfl⟩

/-- The store holding nothing at all. -/
def emptyStore : Store := { users := [], workspaces := [], projects := [], labels := [] }

/-- Witness for C5: creating a SCRUM project against the empty store, whose
workspaces cannot match the short name `acme`. -/
theorem createProject_c5_witness :
    (createProject emptyStore "u1" "Sprint Board" ProjectType.SCRUM "acme" "pj1").1.workspaceId
      = none ∧
    (createProject emptyStore "u1" "Sprint Board" ProjectType.SCRUM "acme" "pj1").2.projects =
      emptyStore.projects ++
        [(createProject emptyStore "u1" "Sprint Board" ProjectType.SCRUM "acme" "pj1").1] :=
  createProject_c5 emptyStore "u1" "Sprint Board" "acme" "pj1" ProjectType.SCRUM
    (by intro w hw; simp [emptyStore] at hw)

/-- Claim C4: when no project has the requested id, `deleteProject` fails with
`BAD_REQUEST` (the lead comparison against the absent lookup result fails, the
`UNAUTHORIZED` throw is caught, and the `catch` re-throws `BAD_REQUEST`). -/
theorem deleteProject_c4 (s : Store) (uid id : String)
    (h : ∀ p ∈ s.projects, p.id ≠ id) :
    (deleteProject s uid id).1 =
      .error { code := .BAD_REQUEST, message := "An unexpected error occurred" } := by
  have hfind : s.projects.find? (fun p => p.id == id) = none := by
    rw [List.find?_eq_none]
    intro p hp
    simpa using h p hp
  simp [deleteProject, deleteProjectTry, hfind]

/-- Witness for C4: deleting any id against the empty store. -/
theorem deleteProject_c4_witness :
    (deleteProject emptyStore "u1" "pj1").1 =
      .error { code := .BAD_REQUEST, message := "An unexpected error occurred" } :=
  deleteProject_c4 emptyStore "u1" "pj1" (by intro p hp; simp [emptyStore] at hp)

/-- Claim C10: whenever `deleteProject` fails, the store is unchanged: the
only mutation sits in the branch where the caller equals the project's lead
and the lookup succeeded. -/
theorem deleteProject_c10 (s : Store) (uid id : String) (e : TRPCError)
    (h : (deleteProject s uid id).1 = .error e) :
    (deleteProject s uid id).2 = s := by
  unfold deleteProject deleteProjectTry at h ⊢
  cases hfind : s.projects.find? (fun p => p.id == id) with
  | none => simp [hfind]
  | some p =>
      by_cases hu : some uid = some p.projectLeadId
      · simp [hfind, hu] at h
      · simp [hfind, hu]

/-- A demo project led by `alice`, and a store holding only it. -/
def pr1 : Project :=
  { id := "pj1", name := "P One", projectType := .KANBAN, projectLeadId := "alice",
    defaultAssigneeId := none, workspaceId := none, members := ["alice"], workflows := [] }

/-- A store holding only `pr1`. -/
def s1 : Store := { users := [], workspaces := [], projects := [pr1], labels := [] }

/-- Witness for C10: the non-lead caller `bob` fails to delete `pj1` and the
store is unchanged. -/
theorem deleteProject_c10_witness : (deleteProject s1 "bob" "pj1").2 = s1 :=
  deleteProject_c10 s1 "bob" "pj1"
    { code := .BAD_REQUEST, message := "An unexpected error occurred" } rfl

/-- Claim C1 (code bug): with project `pj1` led by `alice`, the non-lead
caller `bob` gets a `BAD_REQUEST` error — the `UNAUTHORIZED` error thrown in
the `try` block is swallowed by the procedure's own `catch`, which re-throws
`BAD_REQUEST` — while the lead `alice` does succeed and the project is
deleted.  The claim's "fails with Unauthorized" half is therefore false on
the code, though the success condition (caller = lead) is as claimed. -/
theorem deleteProject_c1 :
    pr1.projectLeadId = "alice" ∧
    s1.projects = [pr1] ∧
    (deleteProject s1 "bob" "pj1").1 =
      .error { code := .BAD_REQUEST, message := "An unexpected error occurred" } ∧
    (deleteProject s1 "alice" "pj1").1 = .ok pr1 ∧
    (deleteProject s1 "alice" "pj1").2.projects = [] :=
  ⟨rfl, rfl, rfl, rfl, rfl⟩

/-- Claim C9: `updateProject` changes only `name`, `defaultAssigneeId` and
`projectLeadId` of the targeted project; every other field — in particular
`projectType` — is unchanged, and every non-targeted project is wholly
unchanged. -/
theorem updateProject_c9 (s : Store) (id nm : String) (da : Option String) (pl : String)
    (p' : Project) (s' : Store)
    (h : updateProject s id nm da pl = (.ok p', s')) :
    List.Forall₂ (fun q q' =>
      q'.id = q.id ∧ q'.projectType = q.projectType ∧ q'.workspaceId = q.workspaceId ∧
      q'.members = q.members ∧ q'.workflows = q.workflows ∧
      (q.id ≠ id → q' = q) ∧
      (q.id = id →
        q' = { q with name := nm, defaultAssigneeId := da, projectLeadId := pl }))
      s.projects s'.projects := by
  unfold updateProject at h
  cases hfind : s.projects.find? (fun p => p.id == id) with
  | none =>
      rw [hfind] at h
      exact absurd (congrArg Prod.fst h) (by simp)
  | some p =>
      rw [hfind] at h
      have hs' : s' = { s with projects := s.projects.map (fun q =>
          if q.id == id then
            { q with name := nm, defaultAssigneeId := da, projectLeadId := pl }
          else q) } := (congrArg Prod.snd h).symm
      subst hs'
      rw [show ({ s with projects := s.projects.map (fun q =>
          if q.id == id then
            { q with name := nm, defaultAssigneeId := da, projectLeadId := pl }
          else q) } : Store).projects = s.projects.map (fun q =>
          if q.id == id then
            { q with name := nm, defaultAssigneeId := da, projectLeadId := pl }
          else q) from rfl]
      rw [List.forall₂_map_right_iff, List.forall₂_same]
      intro q hq
      by_cases hqid : q.id = id
      · rw [if_pos (by simp [hqid])]
        exact ⟨rfl, rfl, rfl, rfl, rfl, fun hn => absurd hqid hn, fun _ => rfl⟩
      · rw [if_neg (by simp [hqid])]
        exact ⟨rfl, rfl, rfl, rfl, rfl, fun _ => rfl, fun hEq => absurd hEq hqid⟩

/-- Witness for C9: renaming `pr1` and handing the lead to `carol` in `s1`. -/
theorem updateProject_c9_witness :
    List.Forall₂ (fun q q' =>
      q'.id = q.id ∧ q'.projectType = q.projectType ∧ q'.workspaceId = q.workspaceId ∧
      q'.members = q.members ∧ q'.workflows = q.workflows ∧
      (q.id ≠ "pj1" → q' = q) ∧
      (q.id = "pj1" →
        q' = { q with name := "P Two", defaultAssigneeId := none, projectLeadId := "carol" }))
      s1.projects (updateProject s1 "pj1" "P Two" none "carol").2.projects :=
  updateProject_c9 s1 "pj1" "P Two" none "carol"
    { pr1 with name := "P Two", defaultAssigneeId := none, projectLeadId := "carol" }
    (updateProject s1 "pj1" "P Two" none "carol").2 rfl

/-- Claim C8: `createProjectLabels` rejects a title shorter than 4 characters
or a color whose length is not exactly 7 before touching the store, and
otherwise creates the label row. -/
theorem createProjectLabels_c8 (s : Store) (pid t c : String) (d : Option String)
    (lid : String) :
    ((t.length < 4 ∨ c.length ≠ 7) →
      (createProjectLabels s pid t c d lid).1 =
        .error { code := .BAD_REQUEST, message := "Input validation failed" } ∧
      (createProjectLabels s pid t c d lid).2 = s) ∧
    (4 ≤ t.length → c.length = 7 →
      (createProjectLabels s pid t c d lid).1 =
        .ok { id := lid, title := t, color := c, description := d, projectId := pid } ∧
      (createProjectLabels s pid t c d lid).2 =
        { s with labels := s.labels ++
            [{ id := lid, title := t, color := c, description := d, projectId := pid }] }) := by
  constructor
  · intro h
    have hcond : t.length < 4 ∨ c.length < 7 ∨ 7 < c.length := by
      rcases h with h | h
      · exact Or.inl h
      · rcases Nat.lt_or_ge c.length 7 with hlt | hge
        · exact Or.inr (Or.inl hlt)
        · exact Or.inr (Or.inr (Nat.lt_of_le_of_ne hge (Ne.symm h)))
    unfold createProjectLabels
    rw [if_pos hcond]
    exact ⟨rfl, rfl⟩
  · intro h4 h7
    have hcond : ¬(t.length < 4 ∨ c.length < 7 ∨ 7 < c.length) := by omega
    unfold createProjectLabels
    rw [if_neg hcond]
    exact ⟨rfl, rfl⟩

/-- Witness for C8: the title `ab` is rejected against the empty store; the
title `urgent` with color `#ff0000` is created. -/
theorem createProjectLabels_c8_witness :
    ((createProjectLabels emptyStore "pj1" "ab" "#ff0000" none "lb1").1 =
        .error { code := .BAD_REQUEST, message := "Input validation failed" } ∧
      (createProjectLabels emptyStore "pj1" "ab" "#ff0000" none "lb1").2 = emptyStore) ∧
    ((createProjectLabels emptyStore "pj1" "urgent" "#ff0000" none "lb1").1 =
        .ok { id := "lb1", title := "urgent", color := "#ff0000", description := none,
              projectId := "pj1" } ∧
      (createProjectLabels emptyStore "pj1" "urgent" "#ff0000" none "lb1").2 =
        { emptyStore with labels := emptyStore.labels ++
            [{ id := "lb1", title := "urgent", color := "#ff0000", description := none,
               projectId := "pj1" }] }) :=
  ⟨(createProjectLabels_c8 emptyStore "pj1" "ab" "#ff0000" none "lb1").1
      (Or.inl (by decide)),
   (createProjectLabels_c8 emptyStore "pj1" "urgent" "#ff0000" none "lb1").2
      (by decide) (by decide)⟩

/-- Claim C6: for an existing project, `getProjectWorkflows` returns its
workflows sorted ascending by `index` (a permutation of the project's
workflows, each carrying the issues of the source workflow of the same title
and index sorted ascending by `index`); for an absent project it fails with
the store's not-found error rather than returning a null row. -/
theorem getProjectWorkflows_c6 (s : Store) (pid : String) :
    (∀ p, s.projects.find? (fun q => q.id == pid) = some p →
      ∃ ws, getProjectWorkflows s pid = .ok ws ∧
        ws.Pairwise (fun a b => a.index ≤ b.index) ∧
        List.Perm ws (p.workflows.map
          (fun w => { w with issue := sortByKey (fun i => i.index) w.issue })) ∧
        ∀ w ∈ ws, w.issue.Pairwise (fun a b => a.index ≤ b.index) ∧
          ∃ w0 ∈ p.workflows, w.title = w0.title ∧ w.index = w0.index ∧
            List.Perm w.issue w0.issue) ∧
    (s.projects.find? (fun q => q.id == pid) = none →
      getProjectWorkflows s pid = .error { code := .NOT_FOUND, message := "No Project found" }) := by
  constructor
  · intro p hp
    have hres : getProjectWorkflows s pid =
        .ok (sortByKey (fun w => w.index)
          (p.workflows.map (fun w => { w with issue := sortByKey (fun i => i.index) w.issue }))) := by
      unfold getProjectWorkflows
      rw [hp]
    refine ⟨_, hres, pairwise_sortByKey _ _, sortByKey_perm _ _, ?_⟩
    intro w hw
    have hw' : w ∈ p.workflows.map
        (fun w => { w with issue := sortByKey (fun i => i.index) w.issue }) :=
      (sortByKey_perm _ _).mem_iff.mp hw
    rcases List.mem_map.mp hw' with ⟨w0, hw0, hweq⟩
    subst hweq
    exact ⟨pairwise_sortByKey _ _, ⟨w0, hw0, rfl, rfl, sortByKey_perm _ _⟩⟩
  · intro hnone
    unfold getProjectWorkflows
    rw [hnone]

/-- A demo project whose workflows and issues are stored out of order. -/
def pr6 : Project :=
  { id := "pj6", name := "Board", projectType := .KANBAN, projectLeadId := "alice",
    defaultAssigneeId := none, workspaceId := none, members := ["alice"],
    workflows :=
      [{ title := "Done", index := 1, issue := [{ id := "i1", index := 1 }, { id := "i0", index := 0 }] },
       { title := "Backlog", index := 0, issue := [] }] }

/-- A store holding only `pr6`. -/
def s6 : Store := { users := [], workspaces := [], projects := [pr6], labels := [] }

/-- Witness for C6: reading the workflows of `pj6` (present) and of `nope`
(absent). -/
theorem getProjectWorkflows_c6_witness :
    (∃ ws, getProjectWorkflows s6 "pj6" = .ok ws ∧
      ws.Pairwise (fun a b => a.index ≤ b.index) ∧
      List.Perm ws (pr6.workflows.map
        (fun w => { w with issue := sortByKey (fun i => i.index) w.issue })) ∧
      ∀ w ∈ ws, w.issue.Pairwise (fun a b => a.index ≤ b.index) ∧
        ∃ w0 ∈ pr6.workflows, w.title = w0.title ∧ w.index = w0.index ∧
          List.Perm w.issue w0.issue) ∧
    getProjectWorkflows s6 "nope" = .error { code := .NOT_FOUND, message := "No Project found" } :=
  ⟨(getProjectWorkflows_c6 s6 "pj6").1 pr6 rfl, (getProjectWorkflows_c6 s6 "nope").2 rfl⟩

/-- Demo data for C3: two users `u1` and `p1` in workspace `w1`, and two
projects whose ids are `p1` and `u1`, both with empty member sets. -/
def prA : Project :=
  { id := "p1", name := "Alpha", projectType := .KANBAN, projectLeadId := "lead",
    defaultAssigneeId := none, workspaceId := some "w1", members := [], workflows := [] }

/-- Companion project to `prA` whose id collides with the user id `u1`. -/
def prB : Project :=
  { id := "u1", name := "Beta", projectType := .KANBAN, projectLeadId := "lead",
    defaultAssigneeId := none, workspaceId := some "w1", members := [], workflows := [] }

/-- The store for the C3 evaluation. -/
def s3 : Store :=
  { users := [{ id := "u1", workspaceId := some "w1" }, { id := "p1", workspaceId := some "w1" }],
    workspaces := [{ id := "w1", shortName := "acme" }],
    projects := [prA, prB],
    labels := [] }

/-- Claim C3 (code bug): `assignUserToProject` with workspace `w1`, project
`p1` and user `u1` succeeds, yet afterwards `u1` is NOT a member of project
`p1` (its member set is still empty): the procedure's `where` matches the
user whose id equals the `projectId` input and connects that user to the
project whose id equals the `userId` input, so it is user `p1` who is added
to the members of project `u1`. -/
theorem assignUserToProject_c3 :
    (assignUserToProject s3 "w1" "p1" "u1").1 = .ok { id := "p1", workspaceId := some "w1" } ∧
    ((assignUserToProject s3 "w1" "p1" "u1").2.projects.find? (fun p => p.id == "p1")).map
      (fun p => p.members) = some [] ∧
    ((assignUserToProject s3 "w1" "p1" "u1").2.projects.find? (fun p => p.id == "u1")).map
      (fun p => p.members) = some ["p1"] :=
  ⟨rfl, rfl, rfl⟩

end Rails
